import Mathlib

/-!
Verification of the SF transit tracker's core pipeline
(`backend/services/transit_fetcher.py`, `backend/services/background_updater.py`,
`backend/api/websocket.py`) against its natural-language specification.

Python floats are modelled as `Rat`, Python strings as Lean `String`
(character lists), Python dicts as insertion-ordered association lists with
Python's assignment semantics (update in place on key hit, append otherwise).
`hash` is a parameter `h : String → Int`: within one Python process it is a
fixed deterministic function (its value varies only across processes via seed
randomization).  Python `%` with a positive modulus returns a value in
`[0, m)`, which is exactly Lean's `Int.emod`, so `%` translates verbatim.
-/

namespace TransitSpec

/-- List-level bounded check that `p` is an initial segment of `s`
(model of Python `str.startswith`). -/
def startsWithL : List Char → List Char → Bool
  | [], _ => true
  | _ :: _, [] => false
  | p :: ps, c :: cs => p == c && startsWithL ps cs

/-- One fuel-indexed step list for deleting every occurrence of `pat`
left to right.  Fuel `s.length` is always enough: each step either consumes
the matched pattern or emits one character. -/
def stripAllAux (pat : List Char) : Nat → List Char → List Char
  | 0, s => s
  | _ + 1, [] => []
  | fuel + 1, c :: rest =>
    if startsWithL pat (c :: rest) then
      stripAllAux pat fuel ((c :: rest).drop pat.length)
    else
      c :: stripAllAux pat fuel rest

/-- Model of Python `s.replace(pat, '')`: delete every (non-overlapping,
left-to-right) occurrence of `pat` in `s`.  This is the exact operation the
fetcher uses to strip source prefixes, including its remove-everywhere
behaviour (`'sf-rg-7'.replace('sf-','') == 'rg-7'` but
`'rg-rg-7'.replace('rg-','') == '7'`). -/
def pyReplaceDel (s pat : String) : String :=
  String.mk (stripAllAux pat.data s.data.length s.data)

/-- Model of Python `pat in s` membership on strings (substring test). -/
def containsSub (pat s : List Char) : Bool :=
  (List.range (s.length + 1)).any (fun i => startsWithL pat (s.drop i))

/-- Model of Python `str.lower` (the route codes involved are ASCII). -/
def pyLower (s : String) : String :=
  String.mk (s.data.map Char.toLower)

/-- Model of Python `s.split(':', 1)` restricted to how the fetcher uses it:
`some (before, after)` at the first colon when `':' in s`, else `none`. -/
def splitAtColonAux : List Char → Option (List Char × List Char)
  | [] => none
  | c :: cs =>
    if c == ':' then some ([], cs)
    else
      match splitAtColonAux cs with
      | some (a, b) => some (c :: a, b)
      | none => none

/-- String wrapper of `splitAtColonAux`. -/
def splitOnFirstColon (s : String) : Option (String × String) :=
  match splitAtColonAux s.data with
  | some (a, b) => some (String.mk a, String.mk b)
  | none => none

-- sanity checks on the string model
example : pyReplaceDel "sf-1001" "sf-" = "1001" := by decide
example : pyReplaceDel "rg-rg-7" "rg-" = "7" := by decide
example : pyReplaceDel "A_B-C" "_" = "AB-C" := by decide
example : splitOnFirstColon "CT:123" = some ("CT", "123") := by decide
example : splitOnFirstColon "123" = none := by decide
example : containsSub "x".data "5x rapid".data = true := by decide
example : startsWithL "rg-".data "rg-1001".data = true := by decide

/-- The canonical vehicle record (`backend/models/vehicle.py`, `@dataclass
Vehicle`).  Floats are rationals; field names and defaults follow the
dataclass. -/
structure Vehicle where
  id : String
  type : String
  route : String
  lat : Rat
  lng : Rat
  heading : Rat := 0
  speed : Rat := 0
  agency : String := ""
  destination : String := ""
  last_update : String := ""
deriving DecidableEq, Repr

/-- `TransitDataFetcher._get_vehicle_type(route_id, agency)`:
kind derivation table, translated clause by clause. -/
def get_vehicle_type (route_id agency : String) : String :=
  if agency == "SF" then
    if ["J", "K", "L", "M", "N", "T"].contains route_id then "light-rail"
    else if ["PH", "PM", "CA"].contains route_id then "cable-car"
    else "muni-bus"
  else if agency == "GG" then
    if containsSub "ferry".data (pyLower route_id).data then "ferry" else "bus"
  else if ["CT", "AM", "CE", "SA"].contains agency then "train"
  else if agency == "SB" then "ferry"
  else if ["3D", "CC", "WC"].contains agency then
    if containsSub "express".data (pyLower route_id).data
        || containsSub "x".data (pyLower route_id).data then "express-bus"
    else "bus"
  else "bus"

/-- `TransitDataFetcher._format_route`: `route_id.replace('_','').replace('-','')`. -/
def format_route (route_id : String) : String :=
  pyReplaceDel (pyReplaceDel route_id "_") "-"

/-- The static code-to-display-name table of `TransitDataFetcher._get_agency_name`. -/
def agency_names : List (String × String) :=
  [("SF", "SFMTA"), ("GG", "Golden Gate"), ("AC", "AC Transit"), ("RG", "Regional"),
   ("3D", "Tri Delta Transit"), ("AM", "Capitol Corridor"), ("CC", "County Connection"),
   ("CE", "Altamont Corridor Express"), ("CT", "Caltrain"), ("DE", "Dumbarton Express"),
   ("EM", "Emery Go-Round"), ("FS", "FS Transit"), ("MA", "Marin Transit"),
   ("MV", "MV Transportation"), ("PG", "Presidio Go"), ("SA", "SMART"),
   ("SB", "SF Bay Ferry"), ("SC", "VTA"), ("SM", "SamTrans"),
   ("SO", "Sonoma County Transit"), ("SR", "Sonoma County Transit (SR)"),
   ("ST", "SolTrans"), ("UC", "Union City Transit"), ("VC", "Vacaville City Coach"),
   ("VN", "Vine Transit"), ("WC", "WestCAT"), ("WH", "Wheels")]

/-- `TransitDataFetcher._get_agency_name`: table lookup, unknown codes pass
through verbatim (with a logged warning, a side effect not modelled). -/
def get_agency_name (agency_code : String) : String :=
  match agency_names.lookup agency_code with
  | some n => n
  | none => agency_code

/-- GTFS-Realtime `Position` message: `latitude`/`longitude` are required
floats, `bearing`/`speed` optional (`HasField`). -/
structure GtfsPosition where
  latitude : Rat
  longitude : Rat
  bearing : Option Rat := none
  speed : Option Rat := none
deriving DecidableEq, Repr

/-- GTFS-Realtime `TripDescriptor`: only `route_id` (optional) is read. -/
structure GtfsTrip where
  route_id : Option String := none
deriving DecidableEq, Repr

/-- GTFS-Realtime `VehicleDescriptor`: `id` and `label`; proto string fields
read as `""` when unset, and the code tests `label` for truthiness
(non-emptiness), so `label` is a plain string. -/
structure GtfsVehicleDesc where
  id : String
  label : String := ""
deriving DecidableEq, Repr

/-- GTFS-Realtime `VehiclePosition` message (the `entity.vehicle` payload
handed to `_parse_gtfs_vehicle`): optional `trip`, descriptor, optional
`position`, optional `timestamp` (Unix seconds). -/
structure GtfsVehicleData where
  trip : Option GtfsTrip := none
  vehicle : GtfsVehicleDesc
  position : Option GtfsPosition := none
  timestamp : Option Int := none
deriving DecidableEq, Repr

/-- One `FeedEntity`: the per-entity loop only uses its optional `vehicle`
field. -/
structure FeedEntity where
  vehicle : Option GtfsVehicleData := none
deriving DecidableEq, Repr

/-- Proto2 default instance returned when a `position` message is read
unset. -/
def defaultPosition : GtfsPosition := { latitude := 0, longitude := 0 }

/-- `TransitDataFetcher._parse_gtfs_vehicle(vehicle_data, agency)`.
`fmtTs t` models `datetime.fromtimestamp(t).isoformat()` — `none` when that
call raises (invalid timestamp), in which case the code falls back to
`datetime.now().isoformat()`, modelled by the parameter `now`.  The body is
wrapped in `try/except → None` in the source; in this typed model no branch
raises, so the result is always `some`.  Note there is no latitude/longitude
range validation anywhere in the function: the upstream coordinates are
copied verbatim. -/
def parse_gtfs_vehicle (fmtTs : Int → Option String) (now : String)
    (vd : GtfsVehicleData) (agency : String) : Option Vehicle :=
  let position := vd.position.getD defaultPosition
  let route0 :=
    match vd.trip.bind GtfsTrip.route_id with
    | some r => r
    | none => if vd.vehicle.label == "" then vd.vehicle.id else vd.vehicle.label
  let agencyRoute :=
    if agency == "RG" then
      match splitOnFirstColon route0 with
      | some (a, r) => (a, r)
      | none => ("RG", route0)
    else (agency, route0)
  let actual_agency := agencyRoute.1
  let route1 := agencyRoute.2
  let vehicle_last_update :=
    match vd.timestamp with
    | some t => (fmtTs t).getD now
    | none => now
  some
    { id := pyLower agency ++ "-" ++ vd.vehicle.id
      type := get_vehicle_type route1 actual_agency
      route := format_route route1
      lat := position.latitude
      lng := position.longitude
      heading := position.bearing.getD 0
      speed := match position.speed with
               | some s => s * (2237 / 1000)
               | none => 15
      agency := get_agency_name actual_agency
      destination := ""
      last_update := vehicle_last_update }

/-- The per-agency entity loop of `TransitDataFetcher.fetch_511_gtfs_data`:
an entity is used only when `entity.HasField('vehicle')` and
`entity.vehicle.HasField('position')`; a `None` parse result is skipped
(`if vehicle:`). -/
def processAgencyEntities (fmtTs : Int → Option String) (now : String)
    (agency : String) (entities : List FeedEntity) : List Vehicle :=
  entities.filterMap (fun e =>
    match e.vehicle with
    | some vd => if vd.position.isSome then parse_gtfs_vehicle fmtTs now vd agency else none
    | none => none)

/-- An entity the loop guard rejects: no `vehicle` field, or a `vehicle`
without a `position`. -/
def malformedEntity (e : FeedEntity) : Prop :=
  match e.vehicle with
  | none => True
  | some vd => vd.position = none

/-- One BART `estimate` object: the code only reads `estimate.get('minutes')`
(string, `none` when the key is missing). -/
structure BartEstimate where
  minutes : Option String := none
deriving DecidableEq, Repr

/-- One BART `etd` (destination) object.  `destination` is read with
`.get('destination','')`, so the post-default value is a plain string;
`abbreviation` falls back to the first four characters of the destination;
`estimate` may be absent (`'estimate' in destination` check).  The
JSON single-object-vs-list normalization (`isinstance`) is folded into the
list type. -/
structure BartEtd where
  destination : String := ""
  abbreviation : Option String := none
  estimate : Option (List BartEstimate) := none
deriving DecidableEq, Repr

/-- One BART `station` object: `abbr` (read with `.get('abbr','')`) and the
optional `etd` list. -/
structure BartStation where
  abbr : String := ""
  etd : Option (List BartEtd) := none
deriving DecidableEq, Repr

/-- A BART departure payload: `data['root']['station']` when both keys are
present. -/
structure BartPayload where
  station : Option (List BartStation) := none
deriving DecidableEq, Repr

/-- The fixed station-coordinate table of
`TransitDataFetcher._simulate_bart_positions`. -/
def bart_stations : List (String × (Rat × Rat)) :=
  [("12TH", (378034 / 10000, -1222711 / 10000)), ("16TH", (377648 / 10000, -1224095 / 10000)),
   ("19TH", (378081 / 10000, -1222690 / 10000)), ("24TH", (377527 / 10000, -1224184 / 10000)),
   ("ASHB", (378531 / 10000, -1222701 / 10000)), ("BALB", (377217 / 10000, -1224474 / 10000)),
   ("CIVC", (377795 / 10000, -1224136 / 10000)), ("COLM", (376847 / 10000, -1224661 / 10000)),
   ("DALY", (377061 / 10000, -1224694 / 10000)), ("EMBR", (377928 / 10000, -1223968 / 10000)),
   ("GLEN", (377329 / 10000, -1224340 / 10000)), ("MONT", (377894 / 10000, -1224014 / 10000)),
   ("POWL", (377844 / 10000, -1224079 / 10000))]

/-- Construction of one synthesized BART pseudo-vehicle (the `Vehicle(...)`
call inside `_simulate_bart_positions`), for station `abbr` at table
coordinate `(lat, lng)`, destination entry `d`, slot index `i` (from
`enumerate`), with `h` the process hash function and `now` the fetch
wall-clock time. -/
def simulate_one (h : String → Int) (now : String) (abbr : String)
    (lat lng : Rat) (d : BartEtd) (i : Nat) : Vehicle :=
  { id := "bart-" ++ abbr ++ "-" ++ d.destination ++ "-" ++ toString i
    type := "bart-train"
    route := match d.abbreviation with
             | some a => a
             | none => String.mk (d.destination.data.take 4)
    lat := lat + ((h (abbr ++ toString i) % 100 - 50 : Int) : Rat) * (1 / 10000)
    lng := lng + ((h (d.destination ++ toString i) % 100 - 50 : Int) : Rat) * (1 / 10000)
    heading := ((h d.destination % 360 : Int) : Rat)
    speed := 35 + ((h (abbr ++ toString i) % 20 : Int) : Rat)
    agency := "BART"
    destination := d.destination
    last_update := now }

/-- The per-destination inner loop of `_simulate_bart_positions`:
`for i, estimate in enumerate(estimates[:2])`, skipping estimates whose
`minutes` equals `'Leaving'`. -/
def etdVehicles (h : String → Int) (now : String) (abbr : String)
    (lat lng : Rat) (d : BartEtd) : List Vehicle :=
  match d.estimate with
  | none => []
  | some ests =>
    ((ests.take 2).enum).filterMap (fun p =>
      if p.2.minutes == some "Leaving" then none
      else some (simulate_one h now abbr lat lng d p.1))

/-- The per-station body of `_simulate_bart_positions`: a station is used
only when its `abbr` is in the coordinate table and it carries an `etd`
list. -/
def stationVehicles (h : String → Int) (now : String) (st : BartStation) : List Vehicle :=
  match bart_stations.lookup st.abbr, st.etd with
  | some c, some etds => etds.flatMap (etdVehicles h now st.abbr c.1 c.2)
  | _, _ => []

/-- `TransitDataFetcher._simulate_bart_positions(bart_data)`. -/
def simulate_bart_positions (h : String → Int) (now : String)
    (p : BartPayload) : List Vehicle :=
  match p.station with
  | some sts => sts.flatMap (stationVehicles h now)
  | none => []

/-- Python-dict assignment `m[v.id] = v` on an insertion-ordered
association list: overwrite in place when the key exists, append
otherwise. -/
def dictInsert (m : List (String × Vehicle)) (v : Vehicle) : List (String × Vehicle) :=
  if (m.map Prod.fst).contains v.id then
    m.map (fun p => if p.1 == v.id then (v.id, v) else p)
  else m ++ [(v.id, v)]

/-- The merge loop `for vehicle in vs: all_vehicles[vehicle.id] = vehicle`. -/
def insertAll (m : List (String × Vehicle)) (vs : List Vehicle) : List (String × Vehicle) :=
  vs.foldl dictInsert m

/-- Keys of the merged map. -/
def dictKeys (m : List (String × Vehicle)) : List String :=
  m.map Prod.fst

/-- The home-agency native-id set collected during the 511 merge loop:
`if vehicle.agency == 'SFMTA': sf_vehicle_ids.add(vehicle.id.replace('sf-',''))`. -/
def sfIdsOf (vs : List Vehicle) : List String :=
  (vs.filter (fun v => v.agency == "SFMTA")).map (fun v => pyReplaceDel v.id "sf-")

/-- The removal condition of the dedup pass:
`vehicle.id.startswith('rg-') and vehicle.id.replace('rg-','') in sf_vehicle_ids`
(the `hasattr(vehicle, 'agency')` conjunct is always true for the
dataclass). -/
def dedupRemovable (sfIds : List String) (v : Vehicle) : Bool :=
  startsWithL "rg-".data v.id.data && sfIds.contains (pyReplaceDel v.id "rg-")

/-- The dedup pass of `fetch_all_data`: collect `vehicles_to_remove` (the
keys of removable entries) over the merged map, then delete those keys. -/
def dedupPass (m : List (String × Vehicle)) (sfIds : List String) :
    List (String × Vehicle) :=
  let toRemove := (m.filter (fun p => dedupRemovable sfIds p.2)).map Prod.fst
  m.filter (fun p => !(toRemove.contains p.1))

/-- `TransitDataFetcher.fetch_all_data`, with the two network clients
purified into the vehicle lists they would return (`v511` for
`fetch_511_gtfs_data`, `vbart` for `fetch_bart_data`): a source is consulted
only when its API key differs from the placeholder; 511 vehicles are merged
first (tracking SFMTA native ids), BART vehicles second, then the dedup pass
runs. -/
def fetch_all_data (sf511Key bartKey : String)
    (v511 vbart : List Vehicle) : List (String × Vehicle) :=
  let m1 := if sf511Key == "YOUR_511_API_KEY" then [] else insertAll [] v511
  let sfIds := if sf511Key == "YOUR_511_API_KEY" then [] else sfIdsOf v511
  let m2 := if bartKey == "YOUR_BART_API_KEY" then m1 else insertAll m1 vbart
  dedupPass m2 sfIds

/-- Combined state of the connection-tracking module (`websocket.py`
globals) and the background updater: `active_connections`, the updater's
`is_running` flag, the fetcher's stored vehicle map
(`data_fetcher.vehicles`), and whether a `background_updater` instance was
injected (truthiness test in `handle_connect`/`handle_disconnect`). -/
structure WsState where
  active_connections : Nat
  is_running : Bool
  vehicles : List (String × Vehicle)
  hasUpdater : Bool
deriving DecidableEq, Repr

/-- `BackgroundUpdater.start`: returns early when already running;
otherwise sets `is_running = True` and spawns `_update_loop` on a daemon
thread.  The loop's first iteration runs `fetch_all_data` immediately
(before any `sleep`), so a successful start initiates one fetch cycle at
once — that cycle is the `Nat` component. -/
def bu_start (s : WsState) : WsState × Nat :=
  if s.is_running then (s, 0) else ({ s with is_running := true }, 1)

/-- `BackgroundUpdater.stop`: clears `is_running`; the loop exits at its
next check. -/
def bu_stop (s : WsState) : WsState := { s with is_running := false }

/-- `BackgroundUpdater.force_update`: unconditionally runs one fetch cycle
and broadcasts. -/
def bu_force_update_fetches : Nat := 1

/-- One iteration of `BackgroundUpdater._update_loop` after the initial
one (`while self.is_running: fetch; emit; sleep`): a fetch cycle fires only
while `is_running` holds. -/
def loop_iteration (s : WsState) : WsState × Nat :=
  if s.is_running then (s, 1) else (s, 0)

/-- Total fetch cycles fired by `n` further loop iterations from state
`s`. -/
def loop_fetches (s : WsState) : Nat → Nat
  | 0 => 0
  | n + 1 => (loop_iteration s).2 + loop_fetches (loop_iteration s).1 n

/-- Result of `handle_connect`: the successor state, the number of fetch
cycles initiated immediately by the event, and whether the stored snapshot
was emitted (`bulk_update`) to the connecting client. -/
structure ConnectOut where
  state : WsState
  fetches : Nat
  sent_snapshot : Bool
deriving DecidableEq, Repr

/-- `websocket.handle_connect`: increment `active_connections`; if this is
the first connection, the updater exists and is not running, call
`background_updater.start()` (whose loop fetches once immediately) and then
`background_updater.force_update()` (one more fetch); otherwise, if the
stored vehicle dict is non-empty (Python truthiness), emit it to the new
client. -/
def handle_connect (s : WsState) : ConnectOut :=
  let s1 := { s with active_connections := s.active_connections + 1 }
  if s1.active_connections == 1 && s.hasUpdater && !s.is_running then
    let p := bu_start s1
    { state := p.1, fetches := p.2 + bu_force_update_fetches, sent_snapshot := false }
  else if !s.vehicles.isEmpty then
    { state := s1, fetches := 0, sent_snapshot := true }
  else
    { state := s1, fetches := 0, sent_snapshot := false }

/-- `websocket.handle_disconnect`:
`active_connections = max(0, active_connections - 1)` (Nat subtraction),
and `background_updater.stop()` when no clients remain and the updater is
running. -/
def handle_disconnect (s : WsState) : WsState :=
  let s1 := { s with active_connections := s.active_connections - 1 }
  if s1.active_connections == 0 && s.hasUpdater && s.is_running then bu_stop s1 else s1

/-! ## Helper lemmas -/

/-- Every entry of a merged map built by the fetcher has its key equal to
the stored vehicle's `id` (it was inserted by `all_vehicles[vehicle.id] =
vehicle`). -/
def goodDict (m : List (String × Vehicle)) : Prop :=
  ∀ p ∈ m, p.1 = p.2.id

theorem goodDict_nil : goodDict [] := by
  intro p hp; cases hp

theorem goodDict_dictInsert (m : List (String × Vehicle)) (v : Vehicle)
    (hm : goodDict m) : goodDict (dictInsert m v) := by
  intro p hp
  unfold dictInsert at hp
  by_cases hc : (m.map Prod.fst).contains v.id = true
  · rw [if_pos hc] at hp
    rcases List.mem_map.mp hp with ⟨q, hq, hfq⟩
    by_cases hqk : (q.1 == v.id) = true
    · rw [if_pos hqk] at hfq
      subst hfq; rfl
    · rw [if_neg hqk] at hfq
      subst hfq; exact hm q hq
  · rw [if_neg hc] at hp
    rcases List.mem_append.mp hp with h | h
    · exact hm p h
    · rcases List.mem_singleton.mp h with rfl; rfl

theorem goodDict_insertAll (vs : List Vehicle) :
    ∀ m, goodDict m → goodDict (insertAll m vs) := by
  induction vs with
  | nil => intro m hm; exact hm
  | cons v rest ih =>
    intro m hm
    exact ih (dictInsert m v) (goodDict_dictInsert m v hm)

theorem mem_keys_dictInsert_self (m : List (String × Vehicle)) (v : Vehicle) :
    v.id ∈ dictKeys (dictInsert m v) := by
  unfold dictKeys dictInsert
  by_cases hc : (m.map Prod.fst).contains v.id = true
  · rw [if_pos hc]
    rcases List.mem_map.mp (List.elem_iff.mp hc) with ⟨q, hq, hqk⟩
    refine List.mem_map.mpr ⟨(v.id, v), ?_, rfl⟩
    refine List.mem_map.mpr ⟨q, hq, ?_⟩
    have hqv : (q.1 == v.id) = true := beq_iff_eq.mpr hqk
    rw [if_pos hqv]
  · rw [if_neg hc]
    rw [List.map_append]
    exact List.mem_append.mpr (Or.inr (by simp))

theorem mem_keys_dictInsert_mono (m : List (String × Vehicle)) (v : Vehicle)
    (k : String) (hk : k ∈ dictKeys m) : k ∈ dictKeys (dictInsert m v) := by
  unfold dictKeys dictInsert
  rcases List.mem_map.mp hk with ⟨q, hq, hqk⟩
  by_cases hc : (m.map Prod.fst).contains v.id = true
  · rw [if_pos hc]
    refine List.mem_map.mpr ⟨(if (q.1 == v.id) = true then (v.id, v) else q), ?_, ?_⟩
    · exact List.mem_map.mpr ⟨q, hq, rfl⟩
    · by_cases hqv : (q.1 == v.id) = true
      · rw [if_pos hqv]
        have hq1 : q.1 = v.id := beq_iff_eq.mp hqv
        rw [← hqk, hq1]
      · rw [if_neg hqv]; exact hqk
  · rw [if_neg hc, List.map_append]
    exact List.mem_append.mpr (Or.inl (List.mem_map.mpr ⟨q, hq, hqk⟩))

theorem mem_keys_insertAll_mono (vs : List Vehicle) :
    ∀ m k, k ∈ dictKeys m → k ∈ dictKeys (insertAll m vs) := by
  induction vs with
  | nil => intro m k hk; exact hk
  | cons v rest ih =>
    intro m k hk
    exact ih (dictInsert m v) k (mem_keys_dictInsert_mono m v k hk)

theorem mem_keys_insertAll_of_mem (vs : List Vehicle) :
    ∀ m v, v ∈ vs → v.id ∈ dictKeys (insertAll m vs) := by
  induction vs with
  | nil => intro m v hv; cases hv
  | cons w rest ih =>
    intro m v hv
    rcases List.mem_cons.mp hv with rfl | hv
    · exact mem_keys_insertAll_mono rest (dictInsert m v) v.id
        (mem_keys_dictInsert_self m v)
    · exact ih (dictInsert m w) v hv

/-- Presence after the dedup pass: a key whose stored vehicle can never
match the removal condition survives. -/
theorem mem_keys_dedupPass (m : List (String × Vehicle)) (sfIds : List String)
    (k : String) (hg : goodDict m) (hk : k ∈ dictKeys m)
    (hkeep : ∀ w : Vehicle, w.id = k → dedupRemovable sfIds w = false) :
    k ∈ dictKeys (dedupPass m sfIds) := by
  rcases List.mem_map.mp hk with ⟨p, hp, hpk⟩
  unfold dedupPass dictKeys
  refine List.mem_map.mpr ⟨p, ?_, hpk⟩
  refine List.mem_filter.mpr ⟨hp, ?_⟩
  rw [Bool.not_eq_true']
  rw [Bool.eq_false_iff]
  intro hmem
  have hmem2 : p.1 ∈ (m.filter (fun q => dedupRemovable sfIds q.2)).map Prod.fst :=
    List.elem_iff.mp hmem
  rcases List.mem_map.mp hmem2 with ⟨q, hq, hqk⟩
  have hq1 := List.mem_filter.mp hq
  have hgq := hg q hq1.1
  have hqid : q.2.id = k := by rw [← hgq, hqk, hpk]
  have hkq := hkeep q.2 hqid
  rw [hkq] at hq1
  exact Bool.false_ne_true hq1.2

/-- Absence after the dedup pass: if every vehicle carrying key `k`
matches the removal condition, `k` does not survive. -/
theorem not_mem_keys_dedupPass (m : List (String × Vehicle)) (sfIds : List String)
    (k : String) (hg : goodDict m)
    (hrem : ∀ w : Vehicle, w.id = k → dedupRemovable sfIds w = true) :
    k ∉ dictKeys (dedupPass m sfIds) := by
  intro hk
  unfold dedupPass dictKeys at hk
  rcases List.mem_map.mp hk with ⟨p, hp, hpk⟩
  have hp2 := List.mem_filter.mp hp
  have hpm := hp2.1
  have hpid : p.2.id = k := by rw [← hg p hpm, hpk]
  have hremp := hrem p.2 hpid
  have hin : p.1 ∈ (m.filter (fun q => dedupRemovable sfIds q.2)).map Prod.fst :=
    List.mem_map.mpr ⟨p, List.mem_filter.mpr ⟨hpm, hremp⟩, rfl⟩
  have hcontains : ((m.filter (fun q => dedupRemovable sfIds q.2)).map Prod.fst).contains p.1 = true :=
    List.elem_iff.mpr hin
  rw [hcontains] at hp2
  exact Bool.false_ne_true hp2.2

/-- A literal prefix is detected by `startsWithL`. -/
theorem startsWithL_append (p s : List Char) : startsWithL p (p ++ s) = true := by
  induction p with
  | nil => rfl
  | cons c cs ih => simp [startsWithL, ih]

/-- Nothing surviving the dedup pass still matches the removal
condition: every removable entry's own key was collected into
`vehicles_to_remove` and hence deleted. -/
theorem dedupPass_not_removable (m : List (String × Vehicle)) (s : List String) :
    ∀ p ∈ dedupPass m s, dedupRemovable s p.2 = false := by
  intro p hp
  unfold dedupPass at hp
  have hp2 := List.mem_filter.mp hp
  have hnot := hp2.2
  rw [Bool.not_eq_true'] at hnot
  rw [Bool.eq_false_iff]
  intro hrem
  have hin : p.1 ∈ (m.filter (fun q => dedupRemovable s q.2)).map Prod.fst :=
    List.mem_map.mpr ⟨p, List.mem_filter.mpr ⟨hp2.1, hrem⟩, rfl⟩
  have hct : ((m.filter (fun q => dedupRemovable s q.2)).map Prod.fst).contains p.1 = true :=
    List.elem_iff.mpr hin
  rw [hnot] at hct
  exact Bool.false_ne_true hct

/-- With nothing removable, the dedup pass is the identity. -/
theorem dedupPass_of_not_removable (m : List (String × Vehicle)) (s : List String)
    (h : ∀ p ∈ m, dedupRemovable s p.2 = false) : dedupPass m s = m := by
  unfold dedupPass
  have hnil : m.filter (fun q => dedupRemovable s q.2) = [] :=
    List.filter_eq_nil_iff.mpr (fun p hp => by rw [h p hp]; exact Bool.false_ne_true)
  rw [hnil]
  exact List.filter_eq_self.mpr (fun p _ => rfl)

/-- Claim C4: dedup idempotence.  For every id-keyed vehicle map and every
home-agency native-id set, applying the dedup pass of `fetch_all_data` to an
already-deduplicated map (delete every regional-prefixed record whose
stripped native id is in the home-agency id set) yields exactly the same
map. -/
theorem dedup_pass_idempotent (m : List (String × Vehicle)) (sfIds : List String) :
    dedupPass (dedupPass m sfIds) sfIds = dedupPass m sfIds :=
  dedupPass_of_not_removable (dedupPass m sfIds) sfIds
    (dedupPass_not_removable m sfIds)

/-- The removal condition is vacuous against an empty home-agency id set. -/
theorem dedupRemovable_nil (v : Vehicle) : dedupRemovable [] v = false := by
  unfold dedupRemovable
  rw [show (([] : List String).contains (pyReplaceDel v.id "rg-")) = false from rfl]
  exact Bool.and_false _

/-- Claim C8: placeholder-credential no-op.  If the 511 key is the
placeholder, `fetch_all_data` never consults the 511 client (the result is
independent of whatever it would have returned) and, when the BART key is
configured, the run degrades to exactly the BART merge with every BART
record present — a normal, non-error result.  Symmetrically, a placeholder
BART key leaves the 511 source fetched and deduplicated normally. -/
theorem placeholder_key_noop (sfKey bartKey : String)
    (v511 v511b vbart vbartb : List Vehicle) :
    (sfKey = "YOUR_511_API_KEY" →
      fetch_all_data sfKey bartKey v511 vbart = fetch_all_data sfKey bartKey v511b vbart
      ∧ (bartKey ≠ "YOUR_BART_API_KEY" →
          fetch_all_data sfKey bartKey v511 vbart = insertAll [] vbart
          ∧ ∀ v ∈ vbart, v.id ∈ dictKeys (fetch_all_data sfKey bartKey v511 vbart)))
    ∧ (bartKey = "YOUR_BART_API_KEY" →
      fetch_all_data sfKey bartKey v511 vbart = fetch_all_data sfKey bartKey v511 vbartb
      ∧ (sfKey ≠ "YOUR_511_API_KEY" →
          fetch_all_data sfKey bartKey v511 vbart
            = dedupPass (insertAll [] v511) (sfIdsOf v511))) := by
  constructor
  · intro hsf
    subst hsf
    constructor
    · rfl
    · intro hbart
      have hbne : (bartKey == "YOUR_BART_API_KEY") = false :=
        beq_eq_false_iff_ne.mpr hbart
      have hres : fetch_all_data "YOUR_511_API_KEY" bartKey v511 vbart
          = insertAll [] vbart := by
        show dedupPass
            (if (bartKey == "YOUR_BART_API_KEY") = true then ([] : List (String × Vehicle))
             else insertAll [] vbart) [] = insertAll [] vbart
        rw [if_neg (by rw [hbne]; exact Bool.false_ne_true)]
        exact dedupPass_of_not_removable _ _ (fun p _ => dedupRemovable_nil p.2)
      refine ⟨hres, fun v hv => ?_⟩
      rw [hres]
      exact mem_keys_insertAll_of_mem vbart [] v hv
  · intro hbart
    subst hbart
    constructor
    · rfl
    · intro hsf
      have hsne : (sfKey == "YOUR_511_API_KEY") = false :=
        beq_eq_false_iff_ne.mpr hsf
      show dedupPass
          (if (sfKey == "YOUR_511_API_KEY") = true then ([] : List (String × Vehicle))
           else insertAll [] v511)
          (if (sfKey == "YOUR_511_API_KEY") = true then ([] : List String)
           else sfIdsOf v511)
        = dedupPass (insertAll [] v511) (sfIdsOf v511)
      rw [if_neg (by rw [hsne]; exact Bool.false_ne_true),
          if_neg (by rw [hsne]; exact Bool.false_ne_true)]

/-- Witness for claim C8 at concrete inputs: with the 511 placeholder key,
the run equals the BART-only merge and the BART record's id is present. -/
theorem placeholder_key_noop_witness :
    ("YOUR_511_API_KEY" : String) = "YOUR_511_API_KEY"
    ∧ ("realbartkey" : String) ≠ "YOUR_BART_API_KEY"
    ∧ fetch_all_data "YOUR_511_API_KEY" "realbartkey"
        [{ id := "sf-1", type := "muni-bus", route := "5", lat := 37, lng := -122 }]
        [{ id := "bart-12TH-X-0", type := "bart-train", route := "X", lat := 37, lng := -122 }]
      = insertAll []
        [{ id := "bart-12TH-X-0", type := "bart-train", route := "X", lat := 37, lng := -122 }] := by
  refine ⟨rfl, by decide, ?_⟩
  exact (((placeholder_key_noop "YOUR_511_API_KEY" "realbartkey"
    [{ id := "sf-1", type := "muni-bus", route := "5", lat := 37, lng := -122 }] []
    [{ id := "bart-12TH-X-0", type := "bart-train", route := "X", lat := 37, lng := -122 }] []).1
    rfl).2 (by decide)).1

/-- An id of the form `sf-…` does not start with `rg-`. -/
theorem startsWithL_rg_of_sf (v1 : String) :
    startsWithL "rg-".data ("sf-" ++ v1).data = false := by
  rw [String.data_append]
  rfl

/-- A vehicle stored under an `sf-` prefixed id never matches the removal
condition of the dedup pass. -/
theorem dedupRemovable_sf_prefixed (sfIds : List String) (v1 : String)
    (w : Vehicle) (hw : w.id = "sf-" ++ v1) : dedupRemovable sfIds w = false := by
  unfold dedupRemovable
  rw [hw, startsWithL_rg_of_sf]
  exact Bool.false_and _

/-- A vehicle stored under `rg-` whose stripped id is a tracked home-agency
native id matches the removal condition. -/
theorem dedupRemovable_rg_prefixed (sfIds : List String) (v1 : String)
    (w : Vehicle) (hw : w.id = "rg-" ++ v1)
    (hstrip : pyReplaceDel ("rg-" ++ v1) "rg-" = v1)
    (hmem : v1 ∈ sfIds) : dedupRemovable sfIds w = true := by
  unfold dedupRemovable
  rw [hw]
  have h1 : startsWithL "rg-".data ("rg-" ++ v1).data = true := by
    rw [String.data_append]
    exact startsWithL_append "rg-".data v1.data
  rw [h1, hstrip, Bool.true_and]
  exact List.elem_iff.mpr hmem

/-- Unfolding of `fetch_all_data` when the 511 key is configured. -/
theorem fetch_all_data_eq_of_real_key (sfKey bartKey : String)
    (v511 vbart : List Vehicle) (hkey : sfKey ≠ "YOUR_511_API_KEY") :
    fetch_all_data sfKey bartKey v511 vbart
      = dedupPass
          (if (bartKey == "YOUR_BART_API_KEY") = true then insertAll [] v511
           else insertAll (insertAll [] v511) vbart)
          (sfIdsOf v511) := by
  have hne : ¬ ((sfKey == "YOUR_511_API_KEY") = true) := by
    rw [beq_eq_false_iff_ne.mpr hkey]
    exact Bool.false_ne_true
  show dedupPass
      (if (bartKey == "YOUR_BART_API_KEY") = true
       then (if (sfKey == "YOUR_511_API_KEY") = true then [] else insertAll [] v511)
       else insertAll
         (if (sfKey == "YOUR_511_API_KEY") = true then [] else insertAll [] v511) vbart)
      (if (sfKey == "YOUR_511_API_KEY") = true then [] else sfIdsOf v511) = _
  rw [if_neg hne, if_neg hne]

/-- Claim C1 (amended): cross-source dedup priority.  When the 511 key is
configured and the merged run contains a home-agency record (`sf-` prefix,
agency `SFMTA`) with native id `v1` and a regional record with id
`rg-` + `v1`, then — provided the prefix strips actually recover `v1`
(`id.replace(pfx,'')` deletes every occurrence of the prefix substring, so
this holds exactly when `v1` itself is unaffected by the strip, e.g. for any
`v1` not containing `sf-`/`rg-`) — after the dedup pass the home-agency id
survives and the regional id is gone: exactly one of the two records for
`v1` remains, the `sf-`-prefixed one. -/
theorem cross_source_dedup_priority (sfKey bartKey : String)
    (v511 vbart : List Vehicle) (v1 : String) (vsf vrg : Vehicle)
    (hkey : sfKey ≠ "YOUR_511_API_KEY")
    (hsf_mem : vsf ∈ v511) (hsf_id : vsf.id = "sf-" ++ v1)
    (hsf_ag : vsf.agency = "SFMTA")
    (_hrg_mem : vrg ∈ v511) (_hrg_id : vrg.id = "rg-" ++ v1)
    (hstrip_sf : pyReplaceDel ("sf-" ++ v1) "sf-" = v1)
    (hstrip_rg : pyReplaceDel ("rg-" ++ v1) "rg-" = v1) :
    ("sf-" ++ v1) ∈ dictKeys (fetch_all_data sfKey bartKey v511 vbart)
    ∧ ("rg-" ++ v1) ∉ dictKeys (fetch_all_data sfKey bartKey v511 vbart) := by
  rw [fetch_all_data_eq_of_real_key sfKey bartKey v511 vbart hkey]
  have hgood : goodDict
      (if (bartKey == "YOUR_BART_API_KEY") = true then insertAll [] v511
       else insertAll (insertAll [] v511) vbart) := by
    by_cases hb : (bartKey == "YOUR_BART_API_KEY") = true
    · rw [if_pos hb]
      exact goodDict_insertAll v511 [] goodDict_nil
    · rw [if_neg hb]
      exact goodDict_insertAll vbart (insertAll [] v511)
        (goodDict_insertAll v511 [] goodDict_nil)
  have hmem_sf : ("sf-" ++ v1) ∈ dictKeys
      (if (bartKey == "YOUR_BART_API_KEY") = true then insertAll [] v511
       else insertAll (insertAll [] v511) vbart) := by
    have hbase : ("sf-" ++ v1) ∈ dictKeys (insertAll [] v511) := by
      rw [← hsf_id]
      exact mem_keys_insertAll_of_mem v511 [] vsf hsf_mem
    by_cases hb : (bartKey == "YOUR_BART_API_KEY") = true
    · rw [if_pos hb]; exact hbase
    · rw [if_neg hb]
      exact mem_keys_insertAll_mono vbart (insertAll [] v511) ("sf-" ++ v1) hbase
  have hv1_tracked : v1 ∈ sfIdsOf v511 := by
    refine List.mem_map.mpr ⟨vsf, List.mem_filter.mpr ⟨hsf_mem, beq_iff_eq.mpr hsf_ag⟩, ?_⟩
    rw [hsf_id, hstrip_sf]
  constructor
  · exact mem_keys_dedupPass _ (sfIdsOf v511) ("sf-" ++ v1) hgood hmem_sf
      (fun w hw => dedupRemovable_sf_prefixed (sfIdsOf v511) v1 w hw)
  · exact not_mem_keys_dedupPass _ (sfIdsOf v511) ("rg-" ++ v1) hgood
      (fun w hw => dedupRemovable_rg_prefixed (sfIdsOf v511) v1 w hw hstrip_rg hv1_tracked)

/-- Witness for claim C1 at concrete inputs: home record `sf-1001` and
regional record `rg-1001`; after the run exactly the `sf-` record's key
survives. -/
theorem cross_source_dedup_priority_witness :
    ("sfkey" : String) ≠ "YOUR_511_API_KEY"
    ∧ pyReplaceDel ("sf-" ++ "1001") "sf-" = "1001"
    ∧ pyReplaceDel ("rg-" ++ "1001") "rg-" = "1001"
    ∧ ("sf-" ++ "1001") ∈ dictKeys (fetch_all_data "sfkey" "YOUR_BART_API_KEY"
        [{ id := "sf-1001", type := "muni-bus", route := "5", lat := 37, lng := -122,
           agency := "SFMTA" },
         { id := "rg-1001", type := "bus", route := "5", lat := 37, lng := -122,
           agency := "SamTrans" }] [])
    ∧ ("rg-" ++ "1001") ∉ dictKeys (fetch_all_data "sfkey" "YOUR_BART_API_KEY"
        [{ id := "sf-1001", type := "muni-bus", route := "5", lat := 37, lng := -122,
           agency := "SFMTA" },
         { id := "rg-1001", type := "bus", route := "5", lat := 37, lng := -122,
           agency := "SamTrans" }] []) := by
  have h := cross_source_dedup_priority "sfkey" "YOUR_BART_API_KEY"
    [{ id := "sf-1001", type := "muni-bus", route := "5", lat := 37, lng := -122,
       agency := "SFMTA" },
     { id := "rg-1001", type := "bus", route := "5", lat := 37, lng := -122,
       agency := "SamTrans" }] [] "1001"
    { id := "sf-1001", type := "muni-bus", route := "5", lat := 37, lng := -122,
      agency := "SFMTA" }
    { id := "rg-1001", type := "bus", route := "5", lat := 37, lng := -122,
      agency := "SamTrans" }
    (by decide) (by simp) (by decide) (by decide) (by simp) (by decide)
    (by decide) (by decide)
  exact ⟨by decide, by decide, by decide, h.1, h.2⟩

/-- Counterexample for claim C1 as stated: with native id `rg-7` (so the
home record is `sf-rg-7` and the regional record `rg-rg-7`, whose id with
the regional prefix stripped is again `rg-7`), the dedup pass removes
nothing — `'rg-rg-7'.replace('rg-','')` deletes every occurrence and yields
`'7'`, which is not a tracked home id — so both records for that native id
survive, not exactly one. -/
theorem cross_source_dedup_priority_cex :
    ("sf-" ++ "rg-7") = "sf-rg-7"
    ∧ ("rg-" ++ "rg-7") = "rg-rg-7"
    ∧ pyReplaceDel "sf-rg-7" "sf-" = "rg-7"
    ∧ dictKeys (fetch_all_data "sfkey" "YOUR_BART_API_KEY"
        [{ id := "sf-rg-7", type := "muni-bus", route := "5", lat := 37, lng := -122,
           agency := "SFMTA" },
         { id := "rg-rg-7", type := "bus", route := "5", lat := 37, lng := -122,
           agency := "SamTrans" }] [])
      = ["sf-rg-7", "rg-rg-7"] := by
  exact ⟨by decide, by decide, by decide, by decide⟩

/-- Claim C2 (amended): coordinate handling of the parse.  Every entity
whose position field is present parses to `some` record whose `lat`/`lng`
are the upstream values copied verbatim, and no exception escapes the parse
(the result is always defined).  `_parse_gtfs_vehicle` applies no range
check, so out-of-range coordinates are stored rather than dropped; only
entities lacking the position (or vehicle) field are skipped, by the loop
guard, not by the parse. -/
theorem parse_preserves_coordinates (fmtTs : Int → Option String) (now : String)
    (vd : GtfsVehicleData) (agency : String) (pos : GtfsPosition)
    (hpos : vd.position = some pos) :
    ∃ v, parse_gtfs_vehicle fmtTs now vd agency = some v
      ∧ v.lat = pos.latitude ∧ v.lng = pos.longitude := by
  refine ⟨_, rfl, ?_, ?_⟩
  · show (vd.position.getD defaultPosition).latitude = pos.latitude
    rw [hpos]
    rfl
  · show (vd.position.getD defaultPosition).longitude = pos.longitude
    rw [hpos]
    rfl

/-- Witness for claim C2 at a concrete in-range entity. -/
theorem parse_preserves_coordinates_witness :
    ({ vehicle := { id := "1001" },
       position := some { latitude := 37, longitude := -122 } } : GtfsVehicleData).position
      = some { latitude := 37, longitude := -122 }
    ∧ ∃ v, parse_gtfs_vehicle (fun _ => some "ts") "now"
        { vehicle := { id := "1001" },
          position := some { latitude := 37, longitude := -122 } } "SF" = some v
        ∧ v.lat = ({ latitude := 37, longitude := -122 } : GtfsPosition).latitude
        ∧ v.lng = ({ latitude := 37, longitude := -122 } : GtfsPosition).longitude :=
  ⟨rfl, parse_preserves_coordinates (fun _ => some "ts") "now"
    { vehicle := { id := "1001" }, position := some { latitude := 37, longitude := -122 } }
    "SF" { latitude := 37, longitude := -122 } rfl⟩

/-- Counterexample for claim C2 as stated: an entity whose latitude is 200
(out of `[-90, 90]`) is not dropped — the parse returns a record that
stores latitude 200 verbatim. -/
theorem parse_range_check_cex :
    (parse_gtfs_vehicle (fun _ => some "ts") "now"
        { vehicle := { id := "1001" },
          position := some { latitude := 200, longitude := -122 } } "SF").map Vehicle.lat
      = some 200
    ∧ ¬ ((200 : Rat) ≤ 90) := by
  constructor
  · rfl
  · norm_num

/-- Claim C7: speed normalization.  When the upstream entity carries a
speed, the parsed record's speed is that value times 2.237 (m/s to mph);
when it does not, the speed is the fixed default 15, which is not zero. -/
theorem speed_normalization (fmtTs : Int → Option String) (now : String)
    (vd : GtfsVehicleData) (agency : String) (pos : GtfsPosition) (s : Rat)
    (hpos : vd.position = some pos) :
    (pos.speed = some s →
      (parse_gtfs_vehicle fmtTs now vd agency).map Vehicle.speed
        = some (s * (2237 / 1000)))
    ∧ (pos.speed = none →
      (parse_gtfs_vehicle fmtTs now vd agency).map Vehicle.speed = some 15
      ∧ (15 : Rat) ≠ 0) := by
  have hbase : (parse_gtfs_vehicle fmtTs now vd agency).map Vehicle.speed
      = some (match (vd.position.getD defaultPosition).speed with
              | some s0 => s0 * (2237 / 1000)
              | none => 15) := rfl
  constructor
  · intro hs
    rw [hbase, hpos]
    simp only [Option.getD_some]
    rw [hs]
  · intro hs
    refine ⟨?_, by norm_num⟩
    rw [hbase, hpos]
    simp only [Option.getD_some]
    rw [hs]

/-- Witness for claim C7 at a concrete entity carrying speed 10 m/s. -/
theorem speed_normalization_witness :
    ({ vehicle := { id := "1001" },
       position := some { latitude := 37, longitude := -122, speed := some 10 } }
        : GtfsVehicleData).position
      = some { latitude := 37, longitude := -122, speed := some 10 }
    ∧ ({ latitude := 37, longitude := -122, speed := some 10 } : GtfsPosition).speed
      = some 10
    ∧ (parse_gtfs_vehicle (fun _ => some "ts") "now"
        { vehicle := { id := "1001" },
          position := some { latitude := 37, longitude := -122, speed := some 10 } }
        "SF").map Vehicle.speed = some ((10 : Rat) * (2237 / 1000)) :=
  ⟨rfl, rfl,
    (speed_normalization (fun _ => some "ts") "now"
      { vehicle := { id := "1001" },
        position := some { latitude := 37, longitude := -122, speed := some 10 } }
      "SF" { latitude := 37, longitude := -122, speed := some 10 } 10 rfl).1 rfl⟩

/-- Claim C9: per-entity parse totality and isolation.  The parse of any
typed entity is total (`some`, never an escaped exception — the Python body
is wrapped in `try/except` returning `None`), and the per-agency loop skips
rejected entities individually: a malformed entity in the middle of a feed
removes only itself, the records parsed from the surrounding entities are
kept. -/
theorem parse_totality_and_isolation (fmtTs : Int → Option String) (now agency : String) :
    (∀ vd : GtfsVehicleData, (parse_gtfs_vehicle fmtTs now vd agency).isSome = true)
    ∧ ∀ (es1 es2 : List FeedEntity) (e : FeedEntity), malformedEntity e →
        processAgencyEntities fmtTs now agency (es1 ++ e :: es2)
          = processAgencyEntities fmtTs now agency es1
            ++ processAgencyEntities fmtTs now agency es2 := by
  constructor
  · intro vd
    rfl
  · intro es1 es2 e hmal
    unfold processAgencyEntities
    rw [List.filterMap_append]
    congr 1
    unfold malformedEntity at hmal
    cases he : e.vehicle with
    | none => simp [List.filterMap_cons, he]
    | some vd =>
      simp only [he] at hmal
      simp [List.filterMap_cons, he, hmal]

/-- A healthy feed entity used in concrete runs. -/
def entityGood1 : FeedEntity :=
  { vehicle := some { vehicle := { id := "1001" },
                      position := some { latitude := 37, longitude := -122 } } }

/-- A second healthy feed entity used in concrete runs. -/
def entityGood2 : FeedEntity :=
  { vehicle := some { vehicle := { id := "1002" },
                      position := some { latitude := 38, longitude := -121 } } }

/-- An entity carrying a vehicle without a position (rejected by the loop
guard). -/
def entityNoPos : FeedEntity :=
  { vehicle := some { vehicle := { id := "77" }, position := none } }

/-- Witness for claim C9: a malformed entity (position missing) between
parsed entities removes only itself. -/
theorem parse_totality_and_isolation_witness :
    malformedEntity entityNoPos
    ∧ processAgencyEntities (fun _ => some "ts") "now" "SF"
        ([entityGood1] ++ entityNoPos :: [entityGood2])
      = processAgencyEntities (fun _ => some "ts") "now" "SF" [entityGood1]
        ++ processAgencyEntities (fun _ => some "ts") "now" "SF" [entityGood2] := by
  refine ⟨rfl, ?_⟩
  exact (parse_totality_and_isolation (fun _ => some "ts") "now" "SF").2
    [entityGood1] [entityGood2] entityNoPos rfl

/-- Claim C5 (amended): synthesis bound and `Leaving` exclusion.  Each
destination entry of a station contributes at most two pseudo-vehicles
(`enumerate(estimates[:2])`), and every synthesized pseudo-vehicle comes
from one of the first two estimate slots whose `minutes` is not the
`'Leaving'` sentinel.  The cap is per destination entry of the payload, not
per station×destination value pair: a payload repeating the same
destination entry produces the cap once per occurrence. -/
theorem bart_synthesis_cap_and_leaving (h : String → Int) (now abbr : String)
    (lat lng : Rat) (d : BartEtd) :
    (etdVehicles h now abbr lat lng d).length ≤ 2
    ∧ ∀ v ∈ etdVehicles h now abbr lat lng d,
        ∃ p : Nat × BartEstimate, p ∈ ((d.estimate.getD []).take 2).enum
          ∧ p.2.minutes ≠ some "Leaving"
          ∧ v = simulate_one h now abbr lat lng d p.1 := by
  cases he : d.estimate with
  | none =>
    constructor
    · show (etdVehicles h now abbr lat lng d).length ≤ 2
      unfold etdVehicles
      rw [he]
      exact Nat.zero_le 2
    · intro v hv
      unfold etdVehicles at hv
      rw [he] at hv
      cases hv
  | some ests =>
    have hlist : etdVehicles h now abbr lat lng d
        = ((ests.take 2).enum).filterMap (fun p =>
            if p.2.minutes == some "Leaving" then none
            else some (simulate_one h now abbr lat lng d p.1)) := by
      unfold etdVehicles
      rw [he]
    constructor
    · rw [hlist]
      calc (((ests.take 2).enum).filterMap _).length
          ≤ ((ests.take 2).enum).length := List.length_filterMap_le _ _
        _ = (ests.take 2).length := List.enum_length
        _ ≤ 2 := by
            rw [List.length_take]
            exact min_le_left 2 ests.length
    · intro v hv
      rw [hlist] at hv
      rcases List.mem_filterMap.mp hv with ⟨p, hp, hfp⟩
      by_cases hl : (p.2.minutes == some "Leaving") = true
      · rw [if_pos hl] at hfp
        cases hfp
      · rw [if_neg hl] at hfp
        refine ⟨p, ?_, ?_, ?_⟩
        · exact hp
        · intro hmin
          exact hl (beq_iff_eq.mpr hmin)
        · exact (Option.some_inj.mp hfp).symm

/-- A destination entry with a `Leaving` estimate in slot 0 and live
estimates behind it. -/
def etdLeavingFirst : BartEtd :=
  { destination := "Fremont", abbreviation := some "FRMT",
    estimate := some [{ minutes := some "Leaving" }, { minutes := some "9" },
                      { minutes := some "18" }] }

/-- Witness for claim C5: on a concrete destination entry whose first slot
is `Leaving`, only one pseudo-vehicle is produced (cap respected) and it
comes from the non-`Leaving` slot 1. -/
theorem bart_synthesis_cap_and_leaving_witness :
    (etdVehicles (fun _ => 0) "t" "12TH" 1 2 etdLeavingFirst).length ≤ 2
    ∧ ∃ p : Nat × BartEstimate,
        p ∈ ((etdLeavingFirst.estimate.getD []).take 2).enum
        ∧ p.2.minutes ≠ some "Leaving"
        ∧ simulate_one (fun _ => 0) "t" "12TH" 1 2 etdLeavingFirst 1
          = simulate_one (fun _ => 0) "t" "12TH" 1 2 etdLeavingFirst p.1 := by
  constructor
  · exact (bart_synthesis_cap_and_leaving (fun _ => 0) "t" "12TH" 1 2 etdLeavingFirst).1
  · refine (bart_synthesis_cap_and_leaving (fun _ => 0) "t" "12TH" 1 2 etdLeavingFirst).2
      (simulate_one (fun _ => 0) "t" "12TH" 1 2 etdLeavingFirst 1) ?_
    show simulate_one (fun _ => 0) "t" "12TH" 1 2 etdLeavingFirst 1
      ∈ [simulate_one (fun _ => 0) "t" "12TH" 1 2 etdLeavingFirst 1]
    exact List.mem_singleton.mpr rfl

/-- A live (non-`Leaving`) estimate. -/
def estLive : BartEstimate := { minutes := some "5" }

/-- A destination entry with two live estimates. -/
def etdTwoLive : BartEtd :=
  { destination := "X", abbreviation := some "X",
    estimate := some [estLive, estLive] }

/-- A payload in which the single station `12TH` lists the same
destination entry (destination value `X`) twice. -/
def payloadDupDest : BartPayload :=
  { station := some [{ abbr := "12TH", etd := some [etdTwoLive, etdTwoLive] }] }

/-- Counterexample for claim C5 as stated: a payload whose single station
`12TH` carries two destination entries with the same destination value `X`
synthesizes four pseudo-vehicles, all for the station×destination pair
(`12TH`, `X`) — more than the claimed cap of 2 per pair. -/
theorem bart_synthesis_cap_cex :
    (simulate_bart_positions (fun _ => 0) "t" payloadDupDest).length = 4
    ∧ (simulate_bart_positions (fun _ => 0) "t" payloadDupDest).all
        (fun v => v.destination == "X" && startsWithL "bart-12TH-".data v.id.data) = true
    ∧ ¬ ((4 : Nat) ≤ 2) := by
  refine ⟨rfl, ?_, by decide⟩
  rfl

/-- Claim C6 (amended): synthesis determinism.  With the process hash
function fixed, the synthesized pseudo-vehicle is a pure function of
(station, destination entry, slot): repeated synthesis from the same
estimate is bit-identical.  Two different slot indices give different
latitudes (resp. longitudes) whenever the jitter hashes
`hash(station+slot)` (resp. `hash(destination+slot)`) differ modulo 100 —
the code does not guarantee distinct positions when those hashes collide
modulo 100. -/
theorem bart_synthesis_determinism (h : String → Int) (now abbr : String)
    (lat lng : Rat) (d : BartEtd) (i j : Nat) :
    simulate_one h now abbr lat lng d i = simulate_one h now abbr lat lng d i
    ∧ (h (abbr ++ toString i) % 100 ≠ h (abbr ++ toString j) % 100 →
        (simulate_one h now abbr lat lng d i).lat
          ≠ (simulate_one h now abbr lat lng d j).lat)
    ∧ (h (d.destination ++ toString i) % 100 ≠ h (d.destination ++ toString j) % 100 →
        (simulate_one h now abbr lat lng d i).lng
          ≠ (simulate_one h now abbr lat lng d j).lng) := by
  refine ⟨rfl, ?_, ?_⟩
  · intro hne heq
    apply hne
    have heq2 : lat + ((h (abbr ++ toString i) % 100 - 50 : Int) : Rat) * (1 / 10000)
        = lat + ((h (abbr ++ toString j) % 100 - 50 : Int) : Rat) * (1 / 10000) := heq
    have h3 := add_left_cancel heq2
    have h4 := mul_right_cancel₀ (by norm_num : (1 / 10000 : Rat) ≠ 0) h3
    have h5 : h (abbr ++ toString i) % 100 - 50 = h (abbr ++ toString j) % 100 - 50 := by
      exact_mod_cast h4
    omega
  · intro hne heq
    apply hne
    have heq2 : lng + ((h (d.destination ++ toString i) % 100 - 50 : Int) : Rat) * (1 / 10000)
        = lng + ((h (d.destination ++ toString j) % 100 - 50 : Int) : Rat) * (1 / 10000) := heq
    have h3 := add_left_cancel heq2
    have h4 := mul_right_cancel₀ (by norm_num : (1 / 10000 : Rat) ≠ 0) h3
    have h5 : h (d.destination ++ toString i) % 100 - 50
        = h (d.destination ++ toString j) % 100 - 50 := by
      exact_mod_cast h4
    omega

/-- Witness for claim C6: with a hash whose values at `12TH0` and `12TH1`
(and at `X0`, `X1`) differ modulo 100, slots 0 and 1 get different
latitudes and longitudes. -/
theorem bart_synthesis_determinism_witness :
    ((fun s : String => if s == "12TH1" || s == "X1" then 1 else 0) ("12TH" ++ toString 0) % 100
      ≠ (fun s : String => if s == "12TH1" || s == "X1" then 1 else 0) ("12TH" ++ toString 1) % 100)
    ∧ (simulate_one (fun s : String => if s == "12TH1" || s == "X1" then 1 else 0)
        "t" "12TH" 1 2 etdTwoLive 0).lat
      ≠ (simulate_one (fun s : String => if s == "12TH1" || s == "X1" then 1 else 0)
        "t" "12TH" 1 2 etdTwoLive 1).lat := by
  refine ⟨by decide, ?_⟩
  exact (bart_synthesis_determinism
    (fun s : String => if s == "12TH1" || s == "X1" then 1 else 0)
    "t" "12TH" 1 2 etdTwoLive 0 1).2.1 (by decide)

/-- Counterexample for claim C6 as stated: under a process hash whose
values at the two slot strings agree modulo 100 (here a constant hash —
Python's seeded string hash admits such collisions and the code does
nothing to exclude them), slots 0 and 1 of the same station and destination
synthesize identical latitude and longitude, so distinct slots do not
always yield distinct positions. -/
theorem bart_synthesis_determinism_cex :
    (0 : Nat) ≠ 1
    ∧ (simulate_one (fun _ => 0) "t" "12TH" 1 2 etdTwoLive 0).lat
      = (simulate_one (fun _ => 0) "t" "12TH" 1 2 etdTwoLive 1).lat
    ∧ (simulate_one (fun _ => 0) "t" "12TH" 1 2 etdTwoLive 0).lng
      = (simulate_one (fun _ => 0) "t" "12TH" 1 2 etdTwoLive 1).lng := by
  exact ⟨by decide, rfl, rfl⟩

/-- Claim C3 (amended): scheduler lifecycle.  From the idle state (no
subscribers, updater injected and not running), one connect moves the
system to running and immediately initiates two fetch cycles — the update
loop's first iteration (which fetches before its first sleep) plus the
explicit `force_update()` — not one; from running with a single subscriber,
one disconnect returns to idle, and no further loop iteration fetches until
the next connect. -/
theorem scheduler_lifecycle (vs vs2 vs3 : List (String × Vehicle)) (n : Nat) :
    handle_connect
        { active_connections := 0, is_running := false, vehicles := vs, hasUpdater := true }
      = { state := { active_connections := 1, is_running := true, vehicles := vs,
                     hasUpdater := true },
          fetches := 2, sent_snapshot := false }
    ∧ handle_disconnect
        { active_connections := 1, is_running := true, vehicles := vs2, hasUpdater := true }
      = { active_connections := 0, is_running := false, vehicles := vs2, hasUpdater := true }
    ∧ loop_fetches
        { active_connections := 0, is_running := false, vehicles := vs3, hasUpdater := true } n
      = 0 := by
  refine ⟨rfl, rfl, ?_⟩
  induction n with
  | zero => rfl
  | succ k ih =>
    show loop_fetches
        { active_connections := 0, is_running := false, vehicles := vs3,
          hasUpdater := true } (k + 1) = 0
    rw [loop_fetches]
    show 0 + loop_fetches
        { active_connections := 0, is_running := false, vehicles := vs3,
          hasUpdater := true } k = 0
    rw [Nat.zero_add]
    exact ih

/-- Counterexample for claim C3 as stated: the first connect from idle
initiates two immediate fetch cycles, not exactly one — `start()` launches
`_update_loop`, whose first iteration fetches at once, and the handler then
also calls `force_update()`. -/
theorem scheduler_lifecycle_cex :
    (handle_connect
        { active_connections := 0, is_running := false, vehicles := [],
          hasUpdater := true }).fetches = 2
    ∧ (2 : Nat) ≠ 1 :=
  ⟨rfl, by decide⟩

/-- Claim C10: empty-store connect.  A subscriber connecting while the
updater is already running is sent the stored snapshot exactly when the
stored vehicle map is non-empty; on an empty map the handler emits nothing
to the new client (and initiates no fetch either way). -/
theorem connect_running_snapshot_gate (s : WsState) (hrun : s.is_running = true) :
    (handle_connect s).sent_snapshot = !s.vehicles.isEmpty
    ∧ (handle_connect s).fetches = 0 := by
  obtain ⟨ac, ir, veh, hu⟩ := s
  replace hrun : ir = true := hrun
  subst hrun
  cases hveh : veh.isEmpty with
  | true => constructor <;> simp [handle_connect, hveh]
  | false => constructor <;> simp [handle_connect, hveh]

/-- Witness for claim C10: connecting while running with an empty store
emits nothing; the non-empty case is also instantiated. -/
theorem connect_running_snapshot_gate_witness :
    ({ active_connections := 2, is_running := true, vehicles := [],
       hasUpdater := true } : WsState).is_running = true
    ∧ (handle_connect
        { active_connections := 2, is_running := true, vehicles := [],
          hasUpdater := true }).sent_snapshot
      = !([] : List (String × Vehicle)).isEmpty
    ∧ (handle_connect
        { active_connections := 2, is_running := true, vehicles := [],
          hasUpdater := true }).fetches = 0 := by
  refine ⟨rfl, ?_, ?_⟩
  · exact (connect_running_snapshot_gate
      { active_connections := 2, is_running := true, vehicles := [],
        hasUpdater := true } rfl).1
  · exact (connect_running_snapshot_gate
      { active_connections := 2, is_running := true, vehicles := [],
        hasUpdater := true } rfl).2

end TransitSpec
